import Mathlib

/-!
Shallow embedding of the `resolute-pagerduty` connector (src/incidents.go and
the PagerDuty client in the same package).

Modelling conventions:
- Go `time.Time` values are only carried through the connector, never
  inspected, so they are modelled as an opaque integer timestamp.
- Go errors are strings; `fmt.Errorf("label: %w", err)` becomes
  `"label: " ++ err`.
- The HTTP transport, the JSON decoder and the external document store are
  effects; they are passed in as function parameters (oracles), so theorems
  can quantify over every possible environment and observe exactly which
  request parameters and which document batches the code hands to them.
- Go `map[string]string` is modelled as an association list in insertion
  order; `m[k] = v` is `mapSet`, which replaces an existing binding for `k`
  or appends a fresh one.
-/

namespace PagerDuty

/-- Model of Go `time.Time` (only constructed and passed through here). -/
abbrev Time := Int

/-- Model of `core.DataRef`: the opaque reference handle returned by the
external storage collaborator (`transform.StoreDocuments`). -/
structure DataRef where
  token : String
deriving DecidableEq

/-- `Priority` from the client (id/name/summary). -/
structure Priority where
  id : String
  name : String
  summary : String
deriving DecidableEq

/-- `Service` from the client (id/name/summary). -/
structure Service where
  id : String
  name : String
  summary : String
deriving DecidableEq

/-- `Assignee` from the client (id/name/summary). -/
structure Assignee where
  id : String
  name : String
  summary : String
deriving DecidableEq

/-- `Assignment` from the client: a timestamp (the `at` field, renamed
because `at` is reserved in Lean) and an assignee. -/
structure Assignment where
  assignedAt : Time
  assignee : Assignee
deriving DecidableEq

/-- `EscalationPolicy` from the client (id/name/summary). -/
structure EscalationPolicy where
  id : String
  name : String
  summary : String
deriving DecidableEq

/-- `Incident` record as decoded from the PagerDuty API. -/
structure Incident where
  id : String
  type : String
  summary : String
  description : String
  status : String
  urgency : String
  priority : Option Priority
  createdAt : Time
  updatedAt : Time
  resolvedAt : Option Time
  service : Service
  assignments : List Assignment
  escalationPolicy : EscalationPolicy
  htmlURL : String
deriving DecidableEq

/-- `IncidentListResponse` as decoded from `GET /incidents`. -/
structure IncidentListResponse where
  incidents : List Incident
  limit : Int
  offset : Int
  total : Int
  more : Bool
deriving DecidableEq

/-- `transform.Document`: the normalized output record.  The Go
`map[string]string` metadata is an association list in insertion order. -/
structure Document where
  id : String
  content : String
  title : String
  source : String
  url : String
  metadata : List (String × String)
  updatedAt : Time
deriving DecidableEq

/-- Go map assignment `m[k] = v` on the association-list model: replaces the
binding when the key is already present, appends a fresh binding otherwise. -/
def mapSet (m : List (String × String)) (k v : String) : List (String × String) :=
  if m.any (fun p => p.1 == k) then
    m.map (fun p => if p.1 == k then (k, v) else p)
  else
    m ++ [(k, v)]

/-- `incidentToDocument` (src/incidents.go lines 140-174): maps one incident
to one normalized document. -/
def incidentToDocument (incident : Incident) : Document :=
  let contentParts : List String := [incident.summary]
  let contentParts :=
    if incident.description ≠ "" then contentParts ++ [incident.description]
    else contentParts
  let content := String.intercalate "\n\n" contentParts
  let metadata : List (String × String) :=
    [("incident_id", incident.id),
     ("status", incident.status),
     ("urgency", incident.urgency),
     ("service", incident.service.name)]
  let metadata :=
    match incident.priority with
    | some p => mapSet metadata "priority" p.name
    | none => metadata
  let metadata :=
    match incident.assignments with
    | [] => metadata
    | a :: _ => mapSet metadata "assignee" a.assignee.name
  { id := incident.id
    content := content
    title := incident.summary
    source := "pagerduty"
    url := incident.htmlURL
    metadata := metadata
    updatedAt := incident.updatedAt }

/-- An HTTP response: status code and raw body. -/
structure HTTPResponse where
  statusCode : Nat
  body : String
deriving DecidableEq

/-- The query parameters `ListIncidents` puts on the wire: the limit and the
optional RFC-3339 since/until bounds. -/
structure ListParams where
  limit : Int
  since : Option Time
  untilT : Option Time
deriving DecidableEq

/-- Response handling shared by `ListIncidents` after the request was sent
(src/incidents.go lines 353-369): a transport failure is wrapped with
"execute request", a non-200 status becomes the API error carrying status and
body, and an undecodable body becomes a "decode response" error. -/
def listIncidentsHandle (resp : Except String HTTPResponse)
    (decode : String → Except String IncidentListResponse) :
    Except String IncidentListResponse :=
  match resp with
  | .error e => .error ("execute request: " ++ e)
  | .ok r =>
    if r.statusCode ≠ 200 then
      .error ("pagerduty API error: status=" ++ toString r.statusCode
        ++ " body=" ++ r.body)
    else
      match decode r.body with
      | .error e => .error ("decode response: " ++ e)
      | .ok result => .ok result

/-- `Client.ListIncidents` (src/incidents.go lines 329-370): defaults a
non-positive limit to 25, builds the query parameters, sends the request
through the transport oracle `http`, and handles the response. -/
def ListIncidents (since untilT : Option Time) (limit : Int)
    (http : ListParams → Except String HTTPResponse)
    (decode : String → Except String IncidentListResponse) :
    Except String IncidentListResponse :=
  let limit := if limit ≤ 0 then 25 else limit
  listIncidentsHandle (http { limit := limit, since := since, untilT := untilT }) decode

/-- Response handling of `Client.GetIncident` after the request was sent
(src/incidents.go lines 383-402), with the same failure taxonomy as the list
endpoint; the decode oracle already unwraps the `incident` envelope. -/
def getIncidentHandle (resp : Except String HTTPResponse)
    (decode : String → Except String Incident) : Except String Incident :=
  match resp with
  | .error e => .error ("execute request: " ++ e)
  | .ok r =>
    if r.statusCode ≠ 200 then
      .error ("pagerduty API error: status=" ++ toString r.statusCode
        ++ " body=" ++ r.body)
    else
      match decode r.body with
      | .error e => .error ("decode response: " ++ e)
      | .ok incident => .ok incident

/-- `Client.GetIncident` (src/incidents.go lines 373-402): sends a request to
the single-incident endpoint, keyed by the incident ID, and handles the
response. -/
def GetIncident (incidentID : String)
    (http : String → Except String HTTPResponse)
    (decode : String → Except String Incident) : Except String Incident :=
  getIncidentHandle (http incidentID) decode

/-- `FetchIncidentsInput` (src/incidents.go lines 14-19). -/
structure FetchIncidentsInput where
  apiKey : String
  since : Option Time
  untilT : Option Time
  limit : Int
deriving DecidableEq

/-- `FetchIncidentsOutput` (src/incidents.go lines 22-26). -/
structure FetchIncidentsOutput where
  ref : DataRef
  count : Int
  total : Int
deriving DecidableEq

/-- What `FetchIncidentsActivity` does after `ListIncidents` returned
(src/incidents.go lines 40-59): wrap a list failure with "list incidents",
otherwise map every incident to a document, store the batch, wrap a store
failure with "store documents", and return ref/count/total. -/
def fetchIncidentsAfterList (res : Except String IncidentListResponse)
    (store : List Document → Except String DataRef) :
    Except String FetchIncidentsOutput :=
  match res with
  | .error e => .error ("list incidents: " ++ e)
  | .ok result =>
    let docs := result.incidents.map incidentToDocument
    match store docs with
    | .error e => .error ("store documents: " ++ e)
    | .ok ref => .ok { ref := ref, count := (docs.length : Int), total := result.total }

/-- `FetchIncidentsActivity` (src/incidents.go lines 29-60): defaults a
non-positive input limit to 100, lists incidents, maps, stores, summarizes. -/
def FetchIncidentsActivity (input : FetchIncidentsInput)
    (http : ListParams → Except String HTTPResponse)
    (decode : String → Except String IncidentListResponse)
    (store : List Document → Except String DataRef) :
    Except String FetchIncidentsOutput :=
  let limit := if input.limit ≤ 0 then 100 else input.limit
  fetchIncidentsAfterList (ListIncidents input.since input.untilT limit http decode) store

/-- `FetchIncidentInput` (src/incidents.go lines 63-66). -/
structure FetchIncidentInput where
  apiKey : String
  incidentID : String
deriving DecidableEq

/-- `FetchIncidentOutput` (src/incidents.go lines 69-72). -/
structure FetchIncidentOutput where
  document : Document
  found : Bool
deriving DecidableEq

/-- `FetchIncidentActivity` (src/incidents.go lines 75-89): fetches one
incident; a failure is wrapped with "get incident"; success maps the incident
and reports `found := true`. -/
def FetchIncidentActivity (input : FetchIncidentInput)
    (http : String → Except String HTTPResponse)
    (decode : String → Except String Incident) :
    Except String FetchIncidentOutput :=
  match GetIncident input.incidentID http decode with
  | .error e => .error ("get incident: " ++ e)
  | .ok incident => .ok { document := incidentToDocument incident, found := true }

/-- `FetchPostmortemsInput` (src/incidents.go lines 92-96): no until bound. -/
structure FetchPostmortemsInput where
  apiKey : String
  since : Option Time
  limit : Int
deriving DecidableEq

/-- `FetchPostmortemsOutput` (src/incidents.go lines 99-102): a reference
handle and a count, no total field. -/
structure FetchPostmortemsOutput where
  ref : DataRef
  count : Int
deriving DecidableEq

/-- The postmortem document batch built by the loop in
`FetchPostmortemsActivity` (src/incidents.go lines 120-127): keep only
incidents with status "resolved", map each through `incidentToDocument`, and
set `document_type` to "postmortem" in its metadata. -/
def postmortemDocs (incidents : List Incident) : List Document :=
  incidents.filterMap (fun incident =>
    if incident.status = "resolved" then
      let doc := incidentToDocument incident
      some { doc with metadata := mapSet doc.metadata "document_type" "postmortem" }
    else
      none)

/-- What `FetchPostmortemsActivity` does after `ListIncidents` returned
(src/incidents.go lines 116-137). -/
def fetchPostmortemsAfterList (res : Except String IncidentListResponse)
    (store : List Document → Except String DataRef) :
    Except String FetchPostmortemsOutput :=
  match res with
  | .error e => .error ("list incidents: " ++ e)
  | .ok result =>
    let docs := postmortemDocs result.incidents
    match store docs with
    | .error e => .error ("store documents: " ++ e)
    | .ok ref => .ok { ref := ref, count := (docs.length : Int) }

/-- `FetchPostmortemsActivity` (src/incidents.go lines 105-138): defaults a
non-positive input limit to 100, lists incidents with the since bound only
(until is nil), filters/maps/tags, stores, summarizes. -/
def FetchPostmortemsActivity (input : FetchPostmortemsInput)
    (http : ListParams → Except String HTTPResponse)
    (decode : String → Except String IncidentListResponse)
    (store : List Document → Except String DataRef) :
    Except String FetchPostmortemsOutput :=
  let limit := if input.limit ≤ 0 then 100 else input.limit
  fetchPostmortemsAfterList (ListIncidents input.since none limit http decode) store

/-! ### Concrete sample data, used to evaluate the theorems on closed inputs -/

/-- A sample service. -/
def svcWeb : Service := { id := "SVC1", name := "web", summary := "web" }

/-- A sample escalation policy. -/
def escPol : EscalationPolicy := { id := "EP1", name := "ep", summary := "ep" }

/-- A sample priority. -/
def prioP1 : Priority := { id := "PR1", name := "P1", summary := "P1" }

/-- A sample assignee. -/
def userAna : Assignee := { id := "U1", name := "Ana", summary := "Ana" }

/-- A sample assignment. -/
def asg1 : Assignment := { assignedAt := 10, assignee := userAna }

/-- A resolved incident with description, priority and an assignment. -/
def incRes1 : Incident :=
  { id := "I1", type := "incident", summary := "Server down",
    description := "The server is down", status := "resolved", urgency := "high",
    priority := some prioP1, createdAt := 1, updatedAt := 2, resolvedAt := some 3,
    service := svcWeb, assignments := [asg1],
    escalationPolicy := escPol, htmlURL := "https://pd.example/I1" }

/-- A triggered incident with empty description, no priority, no assignment. -/
def incTrig : Incident :=
  { id := "I2", type := "incident", summary := "Disk alert",
    description := "", status := "triggered", urgency := "low",
    priority := none, createdAt := 4, updatedAt := 5, resolvedAt := none,
    service := svcWeb, assignments := [],
    escalationPolicy := escPol, htmlURL := "https://pd.example/I2" }

/-- An acknowledged incident. -/
def incAck : Incident :=
  { incTrig with id := "I3", status := "acknowledged" }

/-- A second resolved incident. -/
def incRes2 : Incident :=
  { incTrig with id := "I4", status := "resolved" }

/-- A sample list response with one incident of each sample status. -/
def resp0 : IncidentListResponse :=
  { incidents := [incTrig, incAck, incRes1, incRes2],
    limit := 100, offset := 0, total := 4, more := false }

/-- A transport oracle that answers every request with status 200. -/
def http200 : ListParams → Except String HTTPResponse :=
  fun _ => .ok { statusCode := 200, body := "listbody" }

/-- A transport oracle that answers every request with a 404 and a body. -/
def http404 : ListParams → Except String HTTPResponse :=
  fun _ => .ok { statusCode := 404, body := "error: not found" }

/-- A decode oracle that decodes every body to `resp0`. -/
def decodeList0 : String → Except String IncidentListResponse :=
  fun _ => .ok resp0

/-- A store oracle that accepts every batch. -/
def store0 : List Document → Except String DataRef :=
  fun _ => .ok { token := "ref-1" }

/-- A store oracle that rejects every batch. -/
def storeFail : List Document → Except String DataRef :=
  fun _ => .error "disk full"

/-- A single-incident transport oracle answering with status 200. -/
def httpGet200 : String → Except String HTTPResponse :=
  fun _ => .ok { statusCode := 200, body := "incbody" }

/-- A single-incident transport oracle answering with a 404 and a body. -/
def httpGet404 : String → Except String HTTPResponse :=
  fun _ => .ok { statusCode := 404, body := "error: not found" }

/-- A decode oracle that decodes every body to `incRes1`. -/
def decodeInc0 : String → Except String Incident :=
  fun _ => .ok incRes1

/-- A sample batch-fetch input with limit 0. -/
def in0 : FetchIncidentsInput :=
  { apiKey := "k", since := none, untilT := none, limit := 0 }

/-- A sample batch-fetch input with limit 5. -/
def in5 : FetchIncidentsInput :=
  { apiKey := "k", since := none, untilT := none, limit := 5 }

/-- A sample single-fetch input. -/
def gin0 : FetchIncidentInput := { apiKey := "k", incidentID := "I1" }

/-- A sample postmortem-fetch input with limit 0. -/
def pin0 : FetchPostmortemsInput := { apiKey := "k", since := none, limit := 0 }

/-! ### Helper lemmas -/

theorem intercalate_one (s a : String) : String.intercalate s [a] = a := rfl

theorem intercalate_two (s a b : String) :
    String.intercalate s [a, b] = a ++ s ++ b := rfl

/-- The content field unfolded: summary alone, or summary, blank line,
description. -/
theorem incidentToDocument_content (inc : Incident) :
    (incidentToDocument inc).content =
      if inc.description = "" then inc.summary
      else inc.summary ++ "\n\n" ++ inc.description := by
  by_cases h : inc.description = "" <;>
    simp [incidentToDocument, h, intercalate_one, intercalate_two]

/-- The metadata association list unfolded: the four base entries, then the
optional priority entry, then the optional first-assignee entry. -/
theorem incidentToDocument_metadata (inc : Incident) :
    (incidentToDocument inc).metadata =
      [("incident_id", inc.id),
       ("status", inc.status),
       ("urgency", inc.urgency),
       ("service", inc.service.name)]
      ++ (match inc.priority with
          | some p => [("priority", p.name)]
          | none => [])
      ++ (match inc.assignments with
          | [] => []
          | a :: _ => [("assignee", a.assignee.name)]) := by
  rcases hp : inc.priority with _ | p <;>
    rcases ha : inc.assignments with _ | ⟨a, rest⟩ <;>
      simp [incidentToDocument, mapSet, hp, ha]

/-- Setting a key that is absent from the association list appends it. -/
theorem mapSet_fresh (m : List (String × String)) (k v : String)
    (h : (m.any fun p => p.1 == k) = false) : mapSet m k v = m ++ [(k, v)] := by
  simp [mapSet, h]

/-- Looking up a key that was appended to a list not containing it. -/
theorem lookup_append_fresh (m : List (String × String)) (k v : String)
    (h : (m.any fun p => p.1 == k) = false) :
    (m ++ [(k, v)]).lookup k = some v := by
  induction m with
  | nil => simp [List.lookup]
  | cons a m ih =>
    rw [List.any_cons, Bool.or_eq_false_iff] at h
    have hk : (k == a.1) = false :=
      beq_eq_false_iff_ne.mpr (Ne.symm (beq_eq_false_iff_ne.mp h.1))
    simp [List.lookup, hk, ih h.2]

/-- No mapped document carries a `document_type` metadata key. -/
theorem docType_fresh (inc : Incident) :
    ((incidentToDocument inc).metadata.any fun p => p.1 == "document_type") = false := by
  rw [incidentToDocument_metadata]
  cases hp : inc.priority <;> cases ha : inc.assignments <;> simp [hp, ha]

/-- `postmortemDocs` is the map of the tagged mapper over the filter to
resolved incidents. -/
theorem postmortemDocs_eq (incidents : List Incident) :
    postmortemDocs incidents =
      (incidents.filter fun i => i.status == "resolved").map fun i =>
        { incidentToDocument i with
          metadata := (incidentToDocument i).metadata ++ [("document_type", "postmortem")] } := by
  induction incidents with
  | nil => rfl
  | cons i rest ih =>
    by_cases h : i.status = "resolved" <;>
      simp [postmortemDocs, List.filterMap_cons, List.filter_cons, h,
        ← ih, mapSet_fresh _ _ _ (docType_fresh i), postmortemDocs]

/-! ### Claim theorems -/

/-- C1: for every incident, `incidentToDocument` produces a document whose
content is the summary, "\n\n", then the description when the description is
non-empty, and exactly the summary (no trailing separator) when the
description is empty. -/
theorem C1_content (inc : Incident) :
    (inc.description ≠ "" →
      (incidentToDocument inc).content = inc.summary ++ "\n\n" ++ inc.description)
    ∧ (inc.description = "" → (incidentToDocument inc).content = inc.summary) := by
  constructor <;> intro h <;> simp [incidentToDocument_content, h]

/-- Closed evaluation of C1 on a concrete incident with a non-empty
description and one with an empty description. -/
theorem C1_content_witness :
    (incidentToDocument incRes1).content = incRes1.summary ++ "\n\n" ++ incRes1.description
    ∧ (incidentToDocument incTrig).content = incTrig.summary :=
  ⟨(C1_content incRes1).1 (by decide), (C1_content incTrig).2 rfl⟩

/-- C2: the metadata of the mapped document has exactly the keys
incident_id, status, urgency, service, plus priority iff the incident's
priority is non-null (valued with the priority's name), plus assignee iff the
incident has at least one assignment (valued with the first assignment's
assignee name), and no other keys. -/
theorem C2_metadata (inc : Incident) :
    ((incidentToDocument inc).metadata.map Prod.fst =
      ["incident_id", "status", "urgency", "service"]
        ++ (match inc.priority with | some _ => ["priority"] | none => [])
        ++ (match inc.assignments with | [] => [] | _ :: _ => ["assignee"]))
    ∧ (incidentToDocument inc).metadata.lookup "incident_id" = some inc.id
    ∧ (incidentToDocument inc).metadata.lookup "status" = some inc.status
    ∧ (incidentToDocument inc).metadata.lookup "urgency" = some inc.urgency
    ∧ (incidentToDocument inc).metadata.lookup "service" = some inc.service.name
    ∧ (∀ p, inc.priority = some p →
        (incidentToDocument inc).metadata.lookup "priority" = some p.name)
    ∧ (inc.priority = none →
        (incidentToDocument inc).metadata.lookup "priority" = none)
    ∧ (∀ a rest, inc.assignments = a :: rest →
        (incidentToDocument inc).metadata.lookup "assignee" = some a.assignee.name)
    ∧ (inc.assignments = [] →
        (incidentToDocument inc).metadata.lookup "assignee" = none) := by
  rcases hp : inc.priority with _ | p <;>
    rcases ha : inc.assignments with _ | ⟨a, rest⟩ <;>
      simp [incidentToDocument_metadata, hp, ha, List.lookup]

/-- Closed evaluation of C2: on an incident with priority and assignment the
optional entries are present with the right values; on one without, absent. -/
theorem C2_metadata_witness :
    (incidentToDocument incRes1).metadata.lookup "priority" = some prioP1.name
    ∧ (incidentToDocument incRes1).metadata.lookup "assignee" = some asg1.assignee.name
    ∧ (incidentToDocument incTrig).metadata.lookup "priority" = none
    ∧ (incidentToDocument incTrig).metadata.lookup "assignee" = none :=
  ⟨(C2_metadata incRes1).2.2.2.2.2.1 prioP1 rfl,
   (C2_metadata incRes1).2.2.2.2.2.2.2.1 asg1 [] rfl,
   (C2_metadata incTrig).2.2.2.2.2.2.1 rfl,
   (C2_metadata incTrig).2.2.2.2.2.2.2.2 rfl⟩

/-- C3: on a successful list, `FetchPostmortemsActivity` stores exactly one
document per incident with status "resolved" (other statuses produce none),
every stored document's metadata maps document_type to "postmortem", and for
statuses triggered/acknowledged/resolved/resolved exactly 2 documents are
produced. -/
theorem C3_postmortem_filter :
    ∀ (input : FetchPostmortemsInput)
      (http : ListParams → Except String HTTPResponse)
      (decode : String → Except String IncidentListResponse)
      (store : List Document → Except String DataRef)
      (result : IncidentListResponse) (incidents : List Incident),
    (ListIncidents input.since none (if input.limit ≤ 0 then 100 else input.limit)
        http decode = .ok result →
      FetchPostmortemsActivity input http decode store =
        (match store (postmortemDocs result.incidents) with
         | .error e => .error ("store documents: " ++ e)
         | .ok ref =>
            .ok { ref := ref, count := ((postmortemDocs result.incidents).length : Int) }))
    ∧ (postmortemDocs incidents).length =
        (incidents.filter fun i => i.status == "resolved").length
    ∧ (∀ d ∈ postmortemDocs incidents,
        d.metadata.lookup "document_type" = some "postmortem")
    ∧ (∀ i1 i2 i3 i4 : Incident,
        i1.status = "triggered" → i2.status = "acknowledged" →
        i3.status = "resolved" → i4.status = "resolved" →
        (postmortemDocs [i1, i2, i3, i4]).length = 2) := by
  intro input http decode store result incidents
  refine ⟨?_, ?_, ?_, ?_⟩
  · intro h
    simp only [FetchPostmortemsActivity, h, fetchPostmortemsAfterList]
  · rw [postmortemDocs_eq, List.length_map]
  · intro d hd
    rw [postmortemDocs_eq] at hd
    rw [List.mem_map] at hd
    obtain ⟨i, _, rfl⟩ := hd
    exact lookup_append_fresh _ _ _ (docType_fresh i)
  · intro i1 i2 i3 i4 h1 h2 h3 h4
    simp [postmortemDocs, List.filterMap_cons, h1, h2, h3, h4]

/-- Closed evaluation of C3: a run over the four sample statuses stores the
batch built from the two resolved incidents, and that batch has length 2. -/
theorem C3_postmortem_filter_witness :
    FetchPostmortemsActivity pin0 http200 decodeList0 store0 =
      (match store0 (postmortemDocs resp0.incidents) with
       | .error e => .error ("store documents: " ++ e)
       | .ok ref =>
          .ok { ref := ref, count := ((postmortemDocs resp0.incidents).length : Int) })
    ∧ (postmortemDocs [incTrig, incAck, incRes1, incRes2]).length = 2 :=
  ⟨(C3_postmortem_filter pin0 http200 decodeList0 store0 resp0 []).1 rfl,
   (C3_postmortem_filter pin0 http200 decodeList0 store0 resp0 []).2.2.2
     incTrig incAck incRes1 incRes2 rfl rfl rfl rfl⟩

/-- C9: the document batch `FetchPostmortemsActivity` builds and stores is
exactly the map of `incidentToDocument` over the filter of the incident list
to status "resolved", in the same relative order, with every output document
differing from `incidentToDocument` of its incident only in the appended
document_type metadata entry. -/
theorem C9_postmortem_map_filter :
    ∀ (incidents : List Incident) (lim off tot : Int) (more : Bool)
      (store : List Document → Except String DataRef),
    postmortemDocs incidents =
      ((incidents.filter fun i => i.status == "resolved").map fun i =>
        { incidentToDocument i with
          metadata := (incidentToDocument i).metadata ++ [("document_type", "postmortem")] })
    ∧ fetchPostmortemsAfterList
        (.ok { incidents := incidents, limit := lim, offset := off, total := tot, more := more })
        store =
        (match store (postmortemDocs incidents) with
         | .error e => .error ("store documents: " ++ e)
         | .ok ref => .ok { ref := ref, count := ((postmortemDocs incidents).length : Int) }) := by
  intro incidents lim off tot more store
  exact ⟨postmortemDocs_eq incidents, rfl⟩

/-- C4: for limit zero or negative the activities behave as with an effective
limit of 100, the raw client called directly with limit ≤ 0 puts 25 on the
wire, and a positive limit is passed through to the wire unchanged (both by
the raw client and by the batch activity). -/
theorem C4_limit_defaults :
    ∀ (input : FetchIncidentsInput) (pinput : FetchPostmortemsInput)
      (s u : Option Time) (l : Int)
      (http : ListParams → Except String HTTPResponse)
      (decode : String → Except String IncidentListResponse)
      (store : List Document → Except String DataRef),
    (input.limit ≤ 0 →
      FetchIncidentsActivity input http decode store =
        FetchIncidentsActivity { input with limit := 100 } http decode store)
    ∧ (pinput.limit ≤ 0 →
      FetchPostmortemsActivity pinput http decode store =
        FetchPostmortemsActivity { pinput with limit := 100 } http decode store)
    ∧ (l ≤ 0 → ListIncidents s u l http decode =
        listIncidentsHandle (http { limit := 25, since := s, untilT := u }) decode)
    ∧ (0 < l → ListIncidents s u l http decode =
        listIncidentsHandle (http { limit := l, since := s, untilT := u }) decode)
    ∧ (0 < input.limit →
      FetchIncidentsActivity input http decode store =
        fetchIncidentsAfterList
          (listIncidentsHandle
            (http { limit := input.limit, since := input.since, untilT := input.untilT })
            decode) store) := by
  intro input pinput s u l http decode store
  refine ⟨?_, ?_, ?_, ?_, ?_⟩
  · intro h
    simp [FetchIncidentsActivity, h]
  · intro h
    simp [FetchPostmortemsActivity, h]
  · intro h
    simp [ListIncidents, h]
  · intro h
    simp [ListIncidents, not_le.mpr h]
  · intro h
    simp [FetchIncidentsActivity, ListIncidents, not_le.mpr h]

/-- Closed evaluation of C4 at limits 0, -3 and 5. -/
theorem C4_limit_defaults_witness :
    (FetchIncidentsActivity in0 http200 decodeList0 store0 =
      FetchIncidentsActivity { in0 with limit := 100 } http200 decodeList0 store0)
    ∧ (FetchPostmortemsActivity pin0 http200 decodeList0 store0 =
      FetchPostmortemsActivity { pin0 with limit := 100 } http200 decodeList0 store0)
    ∧ (ListIncidents none none (-3) http200 decodeList0 =
      listIncidentsHandle (http200 { limit := 25, since := none, untilT := none }) decodeList0)
    ∧ (ListIncidents none none 5 http200 decodeList0 =
      listIncidentsHandle (http200 { limit := 5, since := none, untilT := none }) decodeList0)
    ∧ (FetchIncidentsActivity in5 http200 decodeList0 store0 =
      fetchIncidentsAfterList
        (listIncidentsHandle
          (http200 { limit := in5.limit, since := in5.since, untilT := in5.untilT })
          decodeList0) store0) :=
  ⟨(C4_limit_defaults in0 pin0 none none (-3) http200 decodeList0 store0).1 (by decide),
   (C4_limit_defaults in0 pin0 none none (-3) http200 decodeList0 store0).2.1 (by decide),
   (C4_limit_defaults in0 pin0 none none (-3) http200 decodeList0 store0).2.2.1 (by decide),
   (C4_limit_defaults in0 pin0 none none 5 http200 decodeList0 store0).2.2.2.1 (by decide),
   (C4_limit_defaults in5 pin0 none none 5 http200 decodeList0 store0).2.2.2.2 (by decide)⟩

/-- C5: on a successful run, `FetchIncidentsActivity` stores the map of
`incidentToDocument` over the listed incidents (one document per incident, in
order), returns Count equal to the number of listed incidents, Total equal to
the server-reported total, and Ref equal to the storage handle. -/
theorem C5_fetchIncidents_success :
    ∀ (input : FetchIncidentsInput)
      (http : ListParams → Except String HTTPResponse)
      (decode : String → Except String IncidentListResponse)
      (store : List Document → Except String DataRef)
      (result : IncidentListResponse) (ref : DataRef),
    ListIncidents input.since input.untilT (if input.limit ≤ 0 then 100 else input.limit)
        http decode = .ok result →
    store (result.incidents.map incidentToDocument) = .ok ref →
    FetchIncidentsActivity input http decode store =
      .ok { ref := ref, count := (result.incidents.length : Int), total := result.total } := by
  intro input http decode store result ref h1 h2
  simp only [FetchIncidentsActivity, h1, fetchIncidentsAfterList, h2, List.length_map]

/-- Closed evaluation of C5 on the four sample incidents. -/
theorem C5_fetchIncidents_success_witness :
    FetchIncidentsActivity in0 http200 decodeList0 store0 =
      .ok { ref := { token := "ref-1" },
            count := (resp0.incidents.length : Int), total := resp0.total } :=
  C5_fetchIncidents_success in0 http200 decodeList0 store0 resp0 { token := "ref-1" } rfl rfl

/-- C10: on every activity execution path, the limit handed to the client is
strictly positive (the positive input limit or the 100 default), so the
request that reaches the wire carries exactly that limit and the client's
25-defaulting branch for limit ≤ 0 is never taken. -/
theorem C10_activity_limit_positive :
    ∀ (input : FetchIncidentsInput) (pinput : FetchPostmortemsInput)
      (http : ListParams → Except String HTTPResponse)
      (decode : String → Except String IncidentListResponse)
      (store : List Document → Except String DataRef),
    (0 < (if input.limit ≤ 0 then (100 : Int) else input.limit)
      ∧ FetchIncidentsActivity input http decode store =
          fetchIncidentsAfterList
            (listIncidentsHandle
              (http { limit := if input.limit ≤ 0 then 100 else input.limit,
                      since := input.since, untilT := input.untilT }) decode) store)
    ∧ (0 < (if pinput.limit ≤ 0 then (100 : Int) else pinput.limit)
      ∧ FetchPostmortemsActivity pinput http decode store =
          fetchPostmortemsAfterList
            (listIncidentsHandle
              (http { limit := if pinput.limit ≤ 0 then 100 else pinput.limit,
                      since := pinput.since, untilT := none }) decode) store) := by
  intro input pinput http decode store
  constructor
  · constructor
    · rcases le_or_lt input.limit 0 with h | h
      · simp [h]
      · simp [not_le.mpr h, h]
    · rcases le_or_lt input.limit 0 with h | h
      · simp [FetchIncidentsActivity, ListIncidents, h]
      · simp [FetchIncidentsActivity, ListIncidents, not_le.mpr h]
  · constructor
    · rcases le_or_lt pinput.limit 0 with h | h
      · simp [h]
      · simp [not_le.mpr h, h]
    · rcases le_or_lt pinput.limit 0 with h | h
      · simp [FetchPostmortemsActivity, ListIncidents, h]
      · simp [FetchPostmortemsActivity, ListIncidents, not_le.mpr h]

/-- C6: `FetchIncidentActivity` either wraps every client failure as an error
or succeeds with Found = true and the document mapped from the fetched
incident; no execution succeeds with Found = false. -/
theorem C6_found_always_true :
    ∀ (input : FetchIncidentInput)
      (http : String → Except String HTTPResponse)
      (decode : String → Except String Incident),
    (∀ out, FetchIncidentActivity input http decode = .ok out →
      out.found = true
        ∧ ∃ incident, GetIncident input.incidentID http decode = .ok incident
            ∧ out.document = incidentToDocument incident)
    ∧ (∀ e, GetIncident input.incidentID http decode = .error e →
        FetchIncidentActivity input http decode = .error ("get incident: " ++ e)) := by
  intro input http decode
  constructor
  · intro out hout
    cases hg : GetIncident input.incidentID http decode with
    | error e =>
      rw [FetchIncidentActivity, hg] at hout
      exact absurd hout (by simp)
    | ok incident =>
      rw [FetchIncidentActivity, hg] at hout
      cases hout
      exact ⟨rfl, incident, rfl, rfl⟩
  · intro e he
    rw [FetchIncidentActivity, he]

/-- Closed evaluation of C6: a successful single fetch yields Found = true,
and a failing client yields the wrapped error. -/
theorem C6_found_always_true_witness :
    (({ document := incidentToDocument incRes1, found := true } : FetchIncidentOutput).found = true
      ∧ ∃ incident, GetIncident gin0.incidentID httpGet200 decodeInc0 = .ok incident
          ∧ ({ document := incidentToDocument incRes1, found := true } : FetchIncidentOutput).document
              = incidentToDocument incident)
    ∧ FetchIncidentActivity gin0 httpGet404 decodeInc0 =
        .error ("get incident: "
          ++ ("pagerduty API error: status=" ++ toString 404 ++ " body=" ++ "error: not found")) :=
  ⟨(C6_found_always_true gin0 httpGet200 decodeInc0).1
      { document := incidentToDocument incRes1, found := true } rfl,
   (C6_found_always_true gin0 httpGet404 decodeInc0).2
      ("pagerduty API error: status=" ++ toString 404 ++ " body=" ++ "error: not found") rfl⟩

/-- C7: a non-200 response from either endpoint makes the client return the
API error carrying the numeric status code and the raw body (and nothing is
decoded or mapped: the result does not depend on the decode or store oracles);
the activities wrap errors with the stage label of the failing step: "list
incidents", "get incident", or "store documents". -/
theorem C7_api_error_message :
    ∀ (status : Nat) (body : String) (s u : Option Time) (l : Int)
      (incidentID : String)
      (input : FetchIncidentsInput) (ginput : FetchIncidentInput)
      (http : ListParams → Except String HTTPResponse)
      (httpG : String → Except String HTTPResponse)
      (decode : String → Except String IncidentListResponse)
      (decodeG : String → Except String Incident)
      (store : List Document → Except String DataRef)
      (result : IncidentListResponse) (e : String),
    (status ≠ 200 →
      (∀ p, http p = .ok { statusCode := status, body := body }) →
      ListIncidents s u l http decode =
        .error ("pagerduty API error: status=" ++ toString status ++ " body=" ++ body))
    ∧ (status ≠ 200 →
      (∀ i, httpG i = .ok { statusCode := status, body := body }) →
      GetIncident incidentID httpG decodeG =
        .error ("pagerduty API error: status=" ++ toString status ++ " body=" ++ body))
    ∧ (∃ pre post,
        "pagerduty API error: status=" ++ toString status ++ " body=" ++ body
          = pre ++ toString status ++ post)
    ∧ (∃ pre,
        "pagerduty API error: status=" ++ toString status ++ " body=" ++ body = pre ++ body)
    ∧ (status ≠ 200 →
      (∀ p, http p = .ok { statusCode := status, body := body }) →
      FetchIncidentsActivity input http decode store =
        .error ("list incidents: "
          ++ ("pagerduty API error: status=" ++ toString status ++ " body=" ++ body)))
    ∧ (status ≠ 200 →
      (∀ i, httpG i = .ok { statusCode := status, body := body }) →
      FetchIncidentActivity ginput httpG decodeG =
        .error ("get incident: "
          ++ ("pagerduty API error: status=" ++ toString status ++ " body=" ++ body)))
    ∧ (ListIncidents input.since input.untilT (if input.limit ≤ 0 then 100 else input.limit)
          http decode = .ok result →
      store (result.incidents.map incidentToDocument) = .error e →
      FetchIncidentsActivity input http decode store = .error ("store documents: " ++ e)) := by
  intro status body s u l incidentID input ginput http httpG decode decodeG store result e
  refine ⟨?_, ?_, ?_, ?_, ?_, ?_, ?_⟩
  · intro h hh
    simp only [ListIncidents, hh, listIncidentsHandle]
    simp [h]
  · intro h hh
    simp only [GetIncident, hh, getIncidentHandle]
    simp [h]
  · exact ⟨"pagerduty API error: status=", " body=" ++ body, by simp [String.append_assoc]⟩
  · exact ⟨"pagerduty API error: status=" ++ toString status ++ " body=", rfl⟩
  · intro h hh
    simp only [FetchIncidentsActivity, ListIncidents, hh, listIncidentsHandle]
    simp [h, fetchIncidentsAfterList]
  · intro h hh
    simp only [FetchIncidentActivity, GetIncident, hh, getIncidentHandle]
    simp [h]
  · intro h1 h2
    simp only [FetchIncidentsActivity, h1, fetchIncidentsAfterList, h2]

/-- Closed evaluation of C7 at a 404 response with body "error: not found",
and of the store-stage label on a failing store. -/
theorem C7_api_error_message_witness :
    ListIncidents none none 5 http404 decodeList0 =
      .error ("pagerduty API error: status=" ++ toString 404 ++ " body=" ++ "error: not found")
    ∧ FetchIncidentsActivity in0 http404 decodeList0 store0 =
        .error ("list incidents: "
          ++ ("pagerduty API error: status=" ++ toString 404 ++ " body=" ++ "error: not found"))
    ∧ FetchIncidentActivity gin0 httpGet404 decodeInc0 =
        .error ("get incident: "
          ++ ("pagerduty API error: status=" ++ toString 404 ++ " body=" ++ "error: not found"))
    ∧ FetchIncidentsActivity in0 http200 decodeList0 storeFail =
        .error ("store documents: " ++ "disk full") :=
  ⟨(C7_api_error_message 404 "error: not found" none none 5 "I1" in0 gin0 http404 httpGet404
      decodeList0 decodeInc0 store0 resp0 "disk full").1 (by decide) (fun _ => rfl),
   (C7_api_error_message 404 "error: not found" none none 5 "I1" in0 gin0 http404 httpGet404
      decodeList0 decodeInc0 store0 resp0 "disk full").2.2.2.2.1 (by decide) (fun _ => rfl),
   (C7_api_error_message 404 "error: not found" none none 5 "I1" in0 gin0 http404 httpGet404
      decodeList0 decodeInc0 store0 resp0 "disk full").2.2.2.2.2.1 (by decide) (fun _ => rfl),
   (C7_api_error_message 404 "error: not found" none none 5 "I1" in0 gin0 http200 httpGet404
      decodeList0 decodeInc0 storeFail resp0 "disk full").2.2.2.2.2.2 rfl rfl⟩

/-- C8: `FetchPostmortemsActivity` always calls the client with the input's
since bound and a nil until bound (the request on the wire has no until
parameter), and its output record consists of a reference handle and a count
only (no total field). -/
theorem C8_postmortems_no_until :
    ∀ (input : FetchPostmortemsInput)
      (http : ListParams → Except String HTTPResponse)
      (decode : String → Except String IncidentListResponse)
      (store : List Document → Except String DataRef),
    FetchPostmortemsActivity input http decode store =
      fetchPostmortemsAfterList
        (listIncidentsHandle
          (http { limit := if input.limit ≤ 0 then 100 else input.limit,
                  since := input.since, untilT := none }) decode) store
    ∧ ∀ o : FetchPostmortemsOutput, o = { ref := o.ref, count := o.count } := by
  intro input http decode store
  constructor
  · rcases le_or_lt input.limit 0 with h | h
    · simp [FetchPostmortemsActivity, ListIncidents, h]
    · simp [FetchPostmortemsActivity, ListIncidents, not_le.mpr h]
  · intro o
    rfl

end PagerDuty
